import Mathlib

/-!
# Verification of the ValuAI backend estimate pipeline

Shallow embedding of `src/backend/server.js` (Express API for startup
valuation predictions): the `POST /api/estimate` validation block, the
ML-call-with-fallback estimation step, the persistence/response shaping,
and the `GET /api/history` pagination handler.

JavaScript numbers are modelled by `ℚ`; untyped JSON values by `JSValue`.
The remote prediction service and the document store are opaque
collaborators, modelled by explicit outcome parameters (`RemoteOutcome`,
`SaveOutcome`) fed to the handler.
-/

namespace ValuAI

/-- An untyped JSON/JavaScript value as it appears in a request body.
Only the shapes the server's code paths distinguish are modelled:
numbers, strings, booleans, `null` and `undefined` (an absent field
destructures to `undefined`). -/
inductive JSValue where
  | num (q : ℚ)
  | str (s : String)
  | boolean (b : Bool)
  | null
  | undefined
deriving DecidableEq, Repr

/-- JavaScript truthiness of a value: `0`, `""`, `false`, `null` and
`undefined` are falsy, everything else modelled here is truthy. -/
def JSValue.truthy : JSValue → Bool
  | .num q => q ≠ 0
  | .str s => s ≠ ""
  | .boolean b => b
  | .null => false
  | .undefined => false

/-- JavaScript `a || b`: `a` when truthy, else `b`. -/
def jsOr (a b : JSValue) : JSValue :=
  if a.truthy then a else b

/-- The raw body of a `POST /api/estimate` request, as destructured at the
top of the handler (`server.js` lines 146-157). A field the client did not
send is `JSValue.undefined`. -/
structure RawRequest where
  funding_rounds : JSValue
  funding_amount : JSValue
  revenue : JSValue
  employees : JSValue
  market_share : JSValue
  profitable : JSValue
  year_founded : JSValue
  industry : JSValue
  region : JSValue
  exit_status : JSValue
deriving DecidableEq, Repr

/-- `INDUSTRIES` (server.js line 69). -/
def INDUSTRIES : List String :=
  ["Cybersecurity", "E-Commerce", "EdTech", "FinTech", "Gaming", "HealthTech", "IoT"]

/-- `REGIONS` (server.js line 70). -/
def REGIONS : List String :=
  ["Australia", "Europe", "North America", "South America"]

/-- `EXIT_STATUSES` (server.js line 71). -/
def EXIT_STATUSES : List String :=
  ["IPO", "Private"]

/-- The four 400-level validation failures of the estimate endpoint. -/
inductive ValidationError where
  | missingFields
  | invalidRevenue
  | invalidEmployees
  | invalidIndustry
deriving DecidableEq, Repr

/-- The `message` string the handler sends with each validation failure. -/
def ValidationError.message : ValidationError → String
  | .missingFields => "Missing required fields: revenue, industry, and employees are required"
  | .invalidRevenue => "Revenue must be a non-negative number"
  | .invalidEmployees => "Employees must be a positive number"
  | .invalidIndustry =>
      "Invalid industry. Must be one of: Cybersecurity, E-Commerce, EdTech, FinTech, Gaming, HealthTech, IoT"

/-- The validation block of `POST /api/estimate` (server.js lines 159-188),
with its checks in source order:
1. `revenue === undefined || !industry || employees === undefined` → missing fields;
2. `typeof revenue !== 'number' || revenue < 0` → invalid revenue;
3. `typeof employees !== 'number' || employees < 1` → invalid employees;
4. `!INDUSTRIES.includes(industry)` → invalid industry (a non-string
   `industry` is never a member of the string list `INDUSTRIES`).
On success it yields the checked `(revenue, employees, industry)` triple. -/
def validate (r : RawRequest) : Except ValidationError (ℚ × ℚ × String) :=
  if r.revenue = JSValue.undefined ∨ r.industry.truthy = false ∨ r.employees = JSValue.undefined then
    .error .missingFields
  else
    match r.revenue with
    | .num rev =>
        if rev < 0 then .error .invalidRevenue
        else
          match r.employees with
          | .num emp =>
              if emp < 1 then .error .invalidEmployees
              else
                match r.industry with
                | .str ind =>
                    if ind ∈ INDUSTRIES then .ok (rev, emp, ind)
                    else .error .invalidIndustry
                | _ => .error .invalidIndustry
          | _ => .error .invalidEmployees
    | _ => .error .invalidRevenue

/-- `validatedRegion = region && REGIONS.includes(region) ? region : 'North America'`
(server.js line 191). A non-string or out-of-enumeration value silently
falls back to the default. -/
def validatedRegion (r : RawRequest) : String :=
  match r.region with
  | .str s => if s ∈ REGIONS then s else "North America"
  | _ => "North America"

/-- `validatedExitStatus = exit_status && EXIT_STATUSES.includes(exit_status) ? exit_status : 'Private'`
(server.js line 192). -/
def validatedExitStatus (r : RawRequest) : String :=
  match r.exit_status with
  | .str s => if s ∈ EXIT_STATUSES then s else "Private"
  | _ => "Private"

/-- The normalized input object the handler builds three times with the
same expressions: as the ML request body (lines 211-220), the persisted
record fields (lines 270-279) and the `input` echo of the 200 response
(lines 294-303). `currentYear` stands for `new Date().getFullYear()`. -/
structure NormalizedInput where
  funding_rounds : JSValue
  funding_amount : JSValue
  revenue : JSValue
  employees : JSValue
  market_share : JSValue
  profitable : JSValue
  year_founded : JSValue
  industry : JSValue
  region : String
  exit_status : String
deriving DecidableEq, Repr

/-- Normalization of optional fields exactly as written in the source:
`funding_rounds || 1`, `funding_amount || 0`, `market_share || 0`,
`profitable || false`, `year_founded || new Date().getFullYear()`, with
`region`/`exit_status` replaced by their validated values. `revenue`,
`employees` and `industry` pass through unchanged. -/
def normalize (currentYear : ℚ) (r : RawRequest) : NormalizedInput :=
  { funding_rounds := jsOr r.funding_rounds (.num 1)
    funding_amount := jsOr r.funding_amount (.num 0)
    revenue := r.revenue
    employees := r.employees
    market_share := jsOr r.market_share (.num 0)
    profitable := jsOr r.profitable (.boolean false)
    year_founded := jsOr r.year_founded (.num currentYear)
    industry := r.industry
    region := validatedRegion r
    exit_status := validatedExitStatus r }

/-- `industryMultipliers` table of the fallback branch (server.js lines 232-240);
`none` models an absent key (JS `undefined`). -/
def industryMultipliers : String → Option ℚ
  | "FinTech" => some 10
  | "Cybersecurity" => some 9
  | "HealthTech" => some 8
  | "EdTech" => some 6
  | "E-Commerce" => some 5
  | "Gaming" => some 5
  | "IoT" => some 7
  | _ => none

/-- `regionMultipliers` table (server.js lines 242-247). -/
def regionMultipliers : String → Option ℚ
  | "North America" => some (12/10)
  | "Europe" => some (11/10)
  | "Australia" => some 1
  | "South America" => some (9/10)
  | _ => none

/-- `exitMultipliers` table (server.js lines 249-252). -/
def exitMultipliers : String → Option ℚ
  | "IPO" => some (3/2)
  | "Private" => some 1
  | _ => none

/-- The fallback valuation formula (server.js lines 254-265):
`((revenue*1_000_000*base) + (funding_amount*1_000_000*2) + (employees*50000)
 + (market_share*100000)) * regionMult * exitMult * profitMult`
with `base = industryMultipliers[industry] || 5`,
`regionMult = regionMultipliers[region] || 1`,
`exitMult = exitMultipliers[exit_status] || 1`,
`profitMult = profitable ? 1.3 : 1.0`. -/
def fallbackValuation (revenue funding_amount employees market_share : ℚ)
    (industry region exit_status : String) (profitable : Bool) : ℚ :=
  let baseMultiplier := (industryMultipliers industry).getD 5
  let regionMult := (regionMultipliers region).getD 1
  let exitMult := (exitMultipliers exit_status).getD 1
  let profitMult : ℚ := if profitable then 13/10 else 1
  ((revenue * 1000000 * baseMultiplier) + (funding_amount * 1000000 * 2) +
      (employees * 50000) + (market_share * 100000)) * regionMult * exitMult * profitMult

/-- The rational value of `v || 0` when that is a number. `none` marks the
raw shapes (truthy strings/booleans) on which JS arithmetic would apply
implicit coercion; no claim and no validated numeric request reaches them. -/
def jsOrNum (v : JSValue) : Option ℚ :=
  match jsOr v (.num 0) with
  | .num q => some q
  | _ => none

/-- The fallback branch applied to a raw request (server.js lines 227-266):
reads `revenue`, `employees`, `industry` directly and `funding_amount || 0`,
`market_share || 0`, `profitable` truthiness, plus the validated
region/exit status. `none` marks raw shapes whose JS implicit numeric
coercion is outside this model; every request that passed validation with
numeric (or absent) optional fields lands in the `some` branch. -/
def estimateFallback (r : RawRequest) : Option ℚ :=
  match r.revenue, r.employees, r.industry, jsOrNum r.funding_amount, jsOrNum r.market_share with
  | .num rev, .num emp, .str ind, some fa, some ms =>
      some (fallbackValuation rev fa emp ms ind (validatedRegion r) (validatedExitStatus r)
        r.profitable.truthy)
  | _, _, _, _, _ => none

/-- Outcome of the `axios.post` call to the ML service: `failed` covers
every thrown error (timeout, connection refused, non-2xx status), `ok`
carries the `valuation` and `predicted_valuation` fields of a 2xx response
body (`undefined` when absent). -/
inductive RemoteOutcome where
  | failed (reason : String)
  | ok (valuation predicted_valuation : JSValue)
deriving DecidableEq, Repr

/-- The `valuation_result` computation (server.js lines 208-266): on a 2xx
response, `mlResponse.data.valuation || mlResponse.data.predicted_valuation`;
on any thrown error, the catch block computes the fallback. -/
def estimateStep (r : RawRequest) (o : RemoteOutcome) : Option JSValue :=
  match o with
  | .ok v pv => some (jsOr v pv)
  | .failed _ => (estimateFallback r).map JSValue.num

/-- Outcome of `startupQuery.save()` (server.js line 283): success with the
assigned document id, or a thrown persistence error with its message. -/
inductive SaveOutcome where
  | saved (id : String)
  | failed (errMsg : String)
deriving DecidableEq, Repr

/-- The observable parts of the JSON response the estimate handler sends:
HTTP status, `success` flag, `message`, the `data.valuation` and
`data.input` payload on success, and the optional `error` detail of the
500 response. -/
structure HandlerResponse where
  status : ℕ
  success : Bool
  message : String
  valuation : Option JSValue
  input : Option NormalizedInput
  errorDetail : Option String
deriving DecidableEq, Repr

/-- The whole `POST /api/estimate` handler (server.js lines 144-316):
validation (400 on failure), estimation (remote with fallback), save
(a throw lands in the outer catch: 500, generic message, `error` detail
only when `NODE_ENV === 'development'`), else the 200 response with the
valuation, and the normalized input echoed under `data.input`.
`env` is `process.env.NODE_ENV`; `currentYear` is `new Date().getFullYear()`.
The result is `none` only where `estimateFallback` is outside the model. -/
def handleEstimate (env : String) (currentYear : ℚ) (r : RawRequest)
    (remote : RemoteOutcome) (save : SaveOutcome) : Option HandlerResponse :=
  match validate r with
  | .error e =>
      some { status := 400, success := false, message := e.message,
             valuation := none, input := none, errorDetail := none }
  | .ok _ =>
      match estimateStep r remote with
      | none => none
      | some val =>
          match save with
          | .failed errMsg =>
              some { status := 500, success := false, message := "Internal server error",
                     valuation := none, input := none,
                     errorDetail := if env = "development" then some errMsg else none }
          | .saved _ =>
              some { status := 200, success := true,
                     message := "Valuation calculated successfully",
                     valuation := some val, input := some (normalize currentYear r),
                     errorDetail := none }

/-- A persisted `StartupQuery` document as seen by the history endpoint:
its creation timestamp and an opaque identifier standing for the rest of
the record. -/
structure StoredRecord where
  id : ℕ
  createdAt : ℚ
deriving DecidableEq, Repr

/-- The `.sort({ createdAt: -1 })` order: `a` before `b` when `a` is at
least as recent. -/
def recOrder (a b : StoredRecord) : Prop :=
  b.createdAt ≤ a.createdAt

instance : DecidableRel recOrder := fun a b => by
  unfold recOrder
  infer_instance

instance : IsTotal StoredRecord recOrder :=
  ⟨fun a b => le_total b.createdAt a.createdAt⟩

instance : IsTrans StoredRecord recOrder :=
  ⟨fun _ _ _ hab hbc => le_trans hbc hab⟩

/-- `parseInt(q) || d` (server.js lines 324-325): `none` models an absent
or unparseable (`NaN`) query parameter; a parsed `0` is falsy and also
falls back to the default. -/
def parsedOr (d : ℤ) : Option ℤ → ℤ
  | none => d
  | some n => if n = 0 then d else n

/-- The `pagination` object of the history response (server.js lines 338-343). -/
structure PageInfo where
  page : ℤ
  limit : ℤ
  total : ℕ
  pages : ℤ
deriving DecidableEq, Repr

/-- The `GET /api/history` handler (server.js lines 322-344): `limit`
defaults to 10 and `page` to 1, `skip = (page - 1) * limit`, the store is
sorted by `createdAt` descending, then `skip`-dropped and `limit`-taken;
`pages = Math.ceil(total / limit)`. `Int.toNat` clamps the negative
skip/limit values no claim exercises (MongoDB rejects a negative skip). -/
def historyHandler (store : List StoredRecord) (limitQ pageQ : Option ℤ) :
    List StoredRecord × PageInfo :=
  let limit := parsedOr 10 limitQ
  let page := parsedOr 1 pageQ
  let skip := (page - 1) * limit
  let sorted := List.insertionSort recOrder store
  let data := (sorted.drop skip.toNat).take limit.toNat
  (data,
   { page := page, limit := limit, total := store.length,
     pages := ⌈(store.length : ℚ) / (limit : ℚ)⌉ })

/-! ## Spec-side reference predicates

These follow the wording of the specification (section 4.1 and the claims),
for comparison against the code-derived `validate` and `normalize`. -/

/-- Spec-side: the three required fields are present (the code reads
presence as `!== undefined` for the numbers, truthiness for `industry`). -/
def hasRequired (r : RawRequest) : Prop :=
  r.revenue ≠ JSValue.undefined ∧ r.industry.truthy = true ∧ r.employees ≠ JSValue.undefined

/-- Spec-side: `revenue` is a non-negative number. -/
def revenueValid (r : RawRequest) : Prop :=
  ∃ q, r.revenue = JSValue.num q ∧ 0 ≤ q

/-- Spec-side (amended): `employees` is a number `≥ 1` (the code does not
require integrality). -/
def employeesValid (r : RawRequest) : Prop :=
  ∃ q, r.employees = JSValue.num q ∧ 1 ≤ q

/-- Spec-side: `industry` is a string of the supported enumeration. -/
def industryValid (r : RawRequest) : Prop :=
  ∃ s, r.industry = JSValue.str s ∧ s ∈ INDUSTRIES

/-! ## Concrete requests used as test vectors -/

/-- A request body with no fields at all. -/
def emptyRequest : RawRequest :=
  { funding_rounds := .undefined, funding_amount := .undefined, revenue := .undefined,
    employees := .undefined, market_share := .undefined, profitable := .undefined,
    year_founded := .undefined, industry := .undefined, region := .undefined,
    exit_status := .undefined }

/-- The spec's concrete test vector `{revenue:5, industry:"FinTech", employees:10}`. -/
def fintechRequest : RawRequest :=
  { emptyRequest with revenue := .num 5, employees := .num 10, industry := .str "FinTech" }

/-- A valid request with a fractional employee count. -/
def fractionalEmployeesRequest : RawRequest :=
  { fintechRequest with employees := .num (3/2) }

/-- A valid request with `market_share` outside `[0,100]`. -/
def outOfRangeShareRequest : RawRequest :=
  { fintechRequest with market_share := .num 150 }

/-- A valid request with a negative `funding_amount`. -/
def negativeFundingRequest : RawRequest :=
  { emptyRequest with
    revenue := .num 0
    employees := .num 1
    industry := .str "FinTech"
    funding_amount := .num (-1000) }

/-- A request whose `industry` is not in the supported enumeration. -/
def badIndustryRequest : RawRequest :=
  { fintechRequest with industry := .str "Crypto" }

/-- A valid request carrying out-of-enumeration `region` and `exit_status`. -/
def badRegionRequest : RawRequest :=
  { fintechRequest with
    region := .str "Antarctica"
    exit_status := .str "Acquired" }

/-! ## Helper lemmas -/

theorem mem_INDUSTRIES_truthy {s : String} (h : s ∈ INDUSTRIES) :
    (JSValue.str s).truthy = true := by
  simp only [INDUSTRIES, List.mem_cons, List.mem_singleton, List.not_mem_nil, or_false] at h
  rcases h with rfl | rfl | rfl | rfl | rfl | rfl | rfl <;> rfl

/-- Inversion of a successful validation: the checked fields have exactly the
shapes and bounds the checks enforce. -/
theorem validate_ok_inv {r : RawRequest} {rev emp : ℚ} {ind : String}
    (h : validate r = .ok (rev, emp, ind)) :
    r.revenue = JSValue.num rev ∧ 0 ≤ rev ∧ r.employees = JSValue.num emp ∧
    1 ≤ emp ∧ r.industry = JSValue.str ind ∧ ind ∈ INDUSTRIES := by
  unfold validate at h
  split at h
  · exact absurd h (by simp)
  · split at h
    case _ q heq =>
      split at h
      · exact absurd h (by simp)
      case _ hneg =>
        split at h
        case _ q2 heq2 =>
          split at h
          · exact absurd h (by simp)
          case _ hneg2 =>
            split at h
            case _ s heq3 =>
              split at h
              case isTrue hmem =>
                simp only [Except.ok.injEq, Prod.mk.injEq] at h
                obtain ⟨h1, h2, h3⟩ := h
                subst h1; subst h2; subst h3
                exact ⟨heq, not_lt.mp hneg, heq2, not_lt.mp hneg2, heq3, hmem⟩
              case isFalse => exact absurd h (by simp)
            all_goals exact absurd h (by simp)
        all_goals exact absurd h (by simp)
    all_goals exact absurd h (by simp)

/-- The coerced region is always a member of `REGIONS`. -/
theorem validatedRegion_mem (r : RawRequest) : validatedRegion r ∈ REGIONS := by
  unfold validatedRegion
  cases r.region with
  | str s =>
      dsimp only
      split
      · assumption
      · decide
  | num q => exact show "North America" ∈ REGIONS by decide
  | boolean b => exact show "North America" ∈ REGIONS by decide
  | null => decide
  | undefined => decide

/-- The coerced exit status is always a member of `EXIT_STATUSES`. -/
theorem validatedExitStatus_mem (r : RawRequest) : validatedExitStatus r ∈ EXIT_STATUSES := by
  unfold validatedExitStatus
  cases r.exit_status with
  | str s =>
      dsimp only
      split
      · assumption
      · decide
  | num q => exact show "Private" ∈ EXIT_STATUSES by decide
  | boolean b => exact show "Private" ∈ EXIT_STATUSES by decide
  | null => decide
  | undefined => decide

theorem industryMultipliers_isSome_of_mem {s : String} (h : s ∈ INDUSTRIES) :
    (industryMultipliers s).isSome = true := by
  simp only [INDUSTRIES, List.mem_cons, List.mem_singleton, List.not_mem_nil, or_false] at h
  rcases h with rfl | rfl | rfl | rfl | rfl | rfl | rfl <;> rfl

theorem regionMultipliers_isSome_of_mem {s : String} (h : s ∈ REGIONS) :
    (regionMultipliers s).isSome = true := by
  simp only [REGIONS, List.mem_cons, List.mem_singleton, List.not_mem_nil, or_false] at h
  rcases h with rfl | rfl | rfl | rfl <;> rfl

theorem exitMultipliers_isSome_of_mem {s : String} (h : s ∈ EXIT_STATUSES) :
    (exitMultipliers s).isSome = true := by
  simp only [EXIT_STATUSES, List.mem_cons, List.mem_singleton, List.not_mem_nil, or_false] at h
  rcases h with rfl | rfl <;> rfl

theorem industry_getD_pos (s : String) : 0 < (industryMultipliers s).getD 5 := by
  unfold industryMultipliers
  split <;> norm_num [Option.getD]

theorem region_getD_pos (s : String) : 0 < (regionMultipliers s).getD 1 := by
  unfold regionMultipliers
  split <;> norm_num [Option.getD]

theorem exit_getD_pos (s : String) : 0 < (exitMultipliers s).getD 1 := by
  unfold exitMultipliers
  split <;> norm_num [Option.getD]

/-- For non-negative inputs the fallback formula is non-negative. -/
theorem fallbackValuation_nonneg {rev fa emp ms : ℚ} (ind reg ex : String) (p : Bool)
    (hrev : 0 ≤ rev) (hfa : 0 ≤ fa) (hemp : 0 ≤ emp) (hms : 0 ≤ ms) :
    0 ≤ fallbackValuation rev fa emp ms ind reg ex p := by
  unfold fallbackValuation
  have hB := industry_getD_pos ind
  have hR := region_getD_pos reg
  have hE := exit_getD_pos ex
  have hP : (0:ℚ) ≤ (if p then 13/10 else 1) := by split <;> norm_num
  refine mul_nonneg (mul_nonneg (mul_nonneg ?_ hR.le) hE.le) hP
  have h1 : 0 ≤ rev * 1000000 * (industryMultipliers ind).getD 5 :=
    mul_nonneg (mul_nonneg hrev (by norm_num)) hB.le
  have h2 : 0 ≤ fa * 1000000 * 2 := mul_nonneg (mul_nonneg hfa (by norm_num)) (by norm_num)
  have h3 : 0 ≤ emp * 50000 := mul_nonneg hemp (by norm_num)
  have h4 : 0 ≤ ms * 100000 := mul_nonneg hms (by norm_num)
  linarith

/-! ## Claim theorems -/

/-- **C9.** The fallback is deterministic: under a remote-unavailable
outcome, the estimate step's value is a function of the request alone — it
does not depend on which failure occurred (reason `m1` vs `m2`) nor on the
fields the formula never reads (`year_founded`, `funding_rounds`). -/
theorem C9_fallback_deterministic (r : RawRequest) (m1 m2 : String) (v w : JSValue) :
    estimateStep { r with year_founded := v, funding_rounds := w } (.failed m1) =
      estimateStep r (.failed m2) := by
  cases r
  rfl

/-- **C2, counterexample.** A 2xx remote response with the parseable numeric
field `valuation: 0` and no `predicted_valuation` neither returns that
number nor computes the fallback: `data.valuation || data.predicted_valuation`
treats `0` as falsy, so `valuation_result` becomes `undefined`. -/
theorem C2_remote_counterexample :
    validate fintechRequest = .ok (5, 10, "FinTech") ∧
    estimateStep fintechRequest (.ok (.num 0) .undefined) = some JSValue.undefined ∧
    JSValue.undefined ≠ JSValue.num 0 ∧
    estimateStep fintechRequest (.failed "any") ≠ some JSValue.undefined := by
  refine ⟨rfl, rfl, by decide, ?_⟩
  intro h
  have h2 : estimateStep fintechRequest (.failed "any") =
      some (.num (fallbackValuation 5 0 10 0 "FinTech" "North America" "Private" false)) := rfl
  rw [h2] at h
  simp at h

/-- **C2, amended.** For every validated request (with numeric or absent
optional fields), a thrown remote error (timeout, connection error,
non-2xx) never propagates: the estimate step always yields the numeric
fallback; and a 2xx response whose `valuation` field is a nonzero number
is returned exactly. (When `valuation` is `0` or absent, the code falls
through to `predicted_valuation`, which may leave `undefined`.) -/
theorem C2_remote_with_fallback (r : RawRequest) (rev emp fa ms : ℚ) (ind : String)
    (hv : validate r = .ok (rev, emp, ind))
    (hfa : jsOrNum r.funding_amount = some fa)
    (hms : jsOrNum r.market_share = some ms) :
    (∀ reason, estimateStep r (.failed reason) =
      some (.num (fallbackValuation rev fa emp ms ind (validatedRegion r)
        (validatedExitStatus r) r.profitable.truthy))) ∧
    (∀ (q : ℚ) (pv : JSValue), q ≠ 0 →
      estimateStep r (.ok (.num q) pv) = some (.num q)) := by
  obtain ⟨hrev, -, hemp, -, hind, -⟩ := validate_ok_inv hv
  constructor
  · intro reason
    unfold estimateStep estimateFallback
    rw [hrev, hemp, hind, hfa, hms]
    rfl
  · intro q pv hq
    unfold estimateStep jsOr
    simp [JSValue.truthy, hq]

/-- **C2, witness.** -/
theorem C2_remote_with_fallback_witness :
    estimateStep fintechRequest (.ok (.num 7) .undefined) = some (.num 7) :=
  (C2_remote_with_fallback fintechRequest 5 10 0 0 "FinTech" rfl rfl rfl).2 7 .undefined
    (by norm_num)

/-- **C6, counterexample.** A negative `funding_amount` passes validation
(only `revenue`, `employees` and `industry` are checked) and is truthy, so
it survives normalization and drives the fallback valuation negative:
`{revenue:0, employees:1, industry:"FinTech", funding_amount:-1000}` under
a remote failure yields −2,399,940,000 in the 200 response. -/
theorem C6_nonneg_counterexample :
    validate negativeFundingRequest = .ok (0, 1, "FinTech") ∧
    estimateStep negativeFundingRequest (.failed "timeout") = some (.num (-2399940000)) ∧
    ((-2399940000 : ℚ) < 0) := by
  refine ⟨rfl, ?_, by norm_num⟩
  show some (JSValue.num (fallbackValuation 0 (-1000) 1 0 "FinTech" "North America" "Private"
    false)) = some (JSValue.num (-2399940000))
  norm_num [fallbackValuation, industryMultipliers, regionMultipliers, exitMultipliers]

/-- **C6, amended.** For every valid request whose defaulted optional
numeric fields are non-negative (`funding_amount || 0 ≥ 0` and
`market_share || 0 ≥ 0`), the fallback valuation is a non-negative number;
the remote path performs no such check and passes the remote value through
(`valuation || predicted_valuation`) unexamined. -/
theorem C6_fallback_nonneg (r : RawRequest) (rev emp fa ms : ℚ) (ind : String) (reason : String)
    (hv : validate r = .ok (rev, emp, ind))
    (hfa : jsOrNum r.funding_amount = some fa) (hfa0 : 0 ≤ fa)
    (hms : jsOrNum r.market_share = some ms) (hms0 : 0 ≤ ms) :
    (∃ q : ℚ, estimateStep r (.failed reason) = some (.num q) ∧ 0 ≤ q) ∧
    (∀ v pv, estimateStep r (.ok v pv) = some (jsOr v pv)) := by
  obtain ⟨hrev, hrev0, hemp, hemp1, hind, -⟩ := validate_ok_inv hv
  constructor
  · refine ⟨fallbackValuation rev fa emp ms ind (validatedRegion r) (validatedExitStatus r)
      r.profitable.truthy, ?_, ?_⟩
    · unfold estimateStep estimateFallback
      rw [hrev, hemp, hind, hfa, hms]
      rfl
    · exact fallbackValuation_nonneg _ _ _ _ hrev0 hfa0 (le_trans zero_le_one hemp1) hms0
  · intro v pv
    rfl

/-- **C6, witness.** -/
theorem C6_fallback_nonneg_witness :
    (0:ℚ) ≤ 60600000 ∧ estimateStep fintechRequest (.failed "x") = some (.num 60600000) := by
  obtain ⟨⟨q, hq, hq0⟩, -⟩ :=
    C6_fallback_nonneg fintechRequest 5 10 0 0 "FinTech" "x" rfl rfl le_rfl rfl le_rfl
  have h2 : estimateStep fintechRequest (.failed "x") =
      some (.num (fallbackValuation 5 0 10 0 "FinTech" "North America" "Private" false)) := rfl
  have h3 : fallbackValuation 5 0 10 0 "FinTech" "North America" "Private" false = 60600000 := by
    norm_num [fallbackValuation, industryMultipliers, regionMultipliers, exitMultipliers]
  have hq' : q = 60600000 := by
    rw [h2, h3] at hq
    injection hq with h4
    injection h4 with h5
    exact h5.symm
  exact ⟨hq' ▸ hq0, by rw [h2, h3]⟩

/-- **C4, counterexample.** `market_share: 150` lies outside the documented
range `[0,100]`, yet the normalized request keeps 150 instead of the
documented default 0: the code only replaces falsy values (`x || 0`), it
never range-checks the optional numeric fields. -/
theorem C4_defaults_counterexample :
    validate outOfRangeShareRequest = .ok (5, 10, "FinTech") ∧
    ¬ ((150:ℚ) ≤ 100) ∧
    (normalize 2025 outOfRangeShareRequest).market_share = .num 150 ∧
    JSValue.num 150 ≠ JSValue.num 0 := by
  exact ⟨rfl, by norm_num, rfl, by decide⟩

/-- **C4, amended.** Optional fields are defaulted exactly when falsy:
absent (`undefined`) `funding_rounds`/`funding_amount`/`market_share`/
`profitable`/`year_founded`/`region`/`exit_status` become `1`, `0`, `0`,
`false`, the current year, `"North America"` and `"Private"`; truthy values
are kept verbatim even when out of their documented range (no validation);
only `region` and `exit_status` are checked against their enumerations,
out-of-enumeration strings falling back to their defaults. -/
theorem C4_optional_defaults (r : RawRequest) (cy : ℚ) :
    (r.funding_rounds = .undefined → (normalize cy r).funding_rounds = .num 1) ∧
    (r.funding_amount = .undefined → (normalize cy r).funding_amount = .num 0) ∧
    (r.market_share = .undefined → (normalize cy r).market_share = .num 0) ∧
    (r.profitable = .undefined → (normalize cy r).profitable = .boolean false) ∧
    (r.year_founded = .undefined → (normalize cy r).year_founded = .num cy) ∧
    (r.region = .undefined → (normalize cy r).region = "North America") ∧
    (r.exit_status = .undefined → (normalize cy r).exit_status = "Private") ∧
    (r.funding_rounds.truthy = true → (normalize cy r).funding_rounds = r.funding_rounds) ∧
    (r.funding_amount.truthy = true → (normalize cy r).funding_amount = r.funding_amount) ∧
    (r.market_share.truthy = true → (normalize cy r).market_share = r.market_share) ∧
    (∀ s, r.region = .str s → s ∉ REGIONS → (normalize cy r).region = "North America") ∧
    (∀ s, r.exit_status = .str s → s ∉ EXIT_STATUSES →
      (normalize cy r).exit_status = "Private") := by
  refine ⟨?_, ?_, ?_, ?_, ?_, ?_, ?_, ?_, ?_, ?_, ?_, ?_⟩
  · intro h; simp [normalize, jsOr, h, JSValue.truthy]
  · intro h; simp [normalize, jsOr, h, JSValue.truthy]
  · intro h; simp [normalize, jsOr, h, JSValue.truthy]
  · intro h; simp [normalize, jsOr, h, JSValue.truthy]
  · intro h; simp [normalize, jsOr, h, JSValue.truthy]
  · intro h; simp [normalize, validatedRegion, h]
  · intro h; simp [normalize, validatedExitStatus, h]
  · intro h; simp [normalize, jsOr, h]
  · intro h; simp [normalize, jsOr, h]
  · intro h; simp [normalize, jsOr, h]
  · intro s hs hmem; simp [normalize, validatedRegion, hs, hmem]
  · intro s hs hmem; simp [normalize, validatedExitStatus, hs, hmem]

/-- **C4, witness.** -/
theorem C4_optional_defaults_witness :
    (normalize 2025 badRegionRequest).region = "North America" ∧
    (normalize 2025 badRegionRequest).exit_status = "Private" ∧
    (normalize 2025 badRegionRequest).funding_rounds = .num 1 :=
  ⟨(C4_optional_defaults badRegionRequest 2025).2.2.2.2.2.2.2.2.2.2.1 "Antarctica" rfl
      (by decide),
   (C4_optional_defaults badRegionRequest 2025).2.2.2.2.2.2.2.2.2.2.2 "Acquired" rfl (by decide),
   (C4_optional_defaults badRegionRequest 2025).1 rfl⟩

/-- **C5.** Validation strictness is asymmetric: a request whose `industry`
is a string outside `INDUSTRIES` is rejected with a 400 response whatever
the other fields and outcomes are, while `region` and `exit_status` are
never grounds for rejection — an out-of-enumeration value is silently
replaced by `"North America"` / `"Private"` and validation is entirely
independent of those two fields. -/
theorem C5_asymmetric_strictness (env : String) (cy : ℚ) (r : RawRequest)
    (remote : RemoteOutcome) (save : SaveOutcome) :
    (∀ s, r.industry = .str s → s ∉ INDUSTRIES →
      ∃ resp, handleEstimate env cy r remote save = some resp ∧
        resp.status = 400 ∧ resp.success = false) ∧
    (∀ s, r.region = .str s → s ∉ REGIONS → (normalize cy r).region = "North America") ∧
    (∀ s, r.exit_status = .str s → s ∉ EXIT_STATUSES →
      (normalize cy r).exit_status = "Private") ∧
    (∀ reg ex, validate { r with region := reg, exit_status := ex } = validate r) := by
  refine ⟨?_, ?_, ?_, ?_⟩
  · intro s hs hmem
    have herr : ∃ e, validate r = .error e := by
      cases hval : validate r with
      | error e => exact ⟨e, rfl⟩
      | ok v =>
          obtain ⟨rev, emp, ind⟩ := v
          obtain ⟨-, -, -, -, hind, hindmem⟩ := validate_ok_inv hval
          rw [hs] at hind
          cases hind
          exact absurd hindmem hmem
    obtain ⟨e, herr⟩ := herr
    refine ⟨⟨400, false, e.message, none, none, none⟩, ?_, rfl, rfl⟩
    unfold handleEstimate
    rw [herr]
  · intro s hs hmem
    simp [normalize, validatedRegion, hs, hmem]
  · intro s hs hmem
    simp [normalize, validatedExitStatus, hs, hmem]
  · intro reg ex
    cases r
    rfl

/-- **C5, witness.** -/
theorem C5_asymmetric_strictness_witness :
    (∃ resp, handleEstimate "production" 2025 badIndustryRequest (.failed "x") (.saved "id") =
      some resp ∧ resp.status = 400 ∧ resp.success = false) ∧
    (normalize 2025 badRegionRequest).region = "North America" :=
  ⟨(C5_asymmetric_strictness "production" 2025 badIndustryRequest (.failed "x")
      (.saved "id")).1 "Crypto" rfl (by decide),
   (C5_asymmetric_strictness "production" 2025 badRegionRequest (.failed "x")
      (.saved "id")).2.1 "Antarctica" rfl (by decide)⟩

theorem getD_of_isSome {α : Type} {o : Option α} (h : o.isSome = true) (d d' : α) :
    o.getD d = o.getD d' := by
  cases o with
  | none => simp at h
  | some v => rfl

/-- **C8.** If the save throws after a valuation was computed, the handler
answers 500 with the generic message `"Internal server error"`, and the
`error` detail field is populated only in development mode (hence never in
production); by contrast a remote prediction failure with a successful
save still produces a 200 success response — persistence failure is
surfaced, remote failure is absorbed. -/
theorem C8_persistence_error_surfaced (env : String) (cy : ℚ) (r : RawRequest)
    (remote : RemoteOutcome) (errMsg : String) (v : ℚ × ℚ × String) (resp : HandlerResponse)
    (hval : validate r = .ok v)
    (hresp : handleEstimate env cy r remote (.failed errMsg) = some resp) :
    resp.status = 500 ∧ resp.success = false ∧ resp.message = "Internal server error" ∧
    (resp.errorDetail ≠ none → env ≠ "production") ∧
    (∀ id resp2, handleEstimate env cy r remote (.saved id) = some resp2 →
      resp2.status = 200 ∧ resp2.success = true) := by
  unfold handleEstimate at hresp
  rw [hval] at hresp
  cases hstep : estimateStep r remote with
  | none =>
      rw [hstep] at hresp
      exact absurd hresp (by simp)
  | some val =>
      rw [hstep] at hresp
      injection hresp with h
      subst h
      refine ⟨rfl, rfl, rfl, ?_, ?_⟩
      · intro hdet
        dsimp only at hdet
        by_cases henv : env = "development"
        · subst henv
          decide
        · simp [henv] at hdet
      · intro id resp2 h2
        unfold handleEstimate at h2
        rw [hval, hstep] at h2
        injection h2 with h3
        subst h3
        exact ⟨rfl, rfl⟩

/-- **C8, witness.** -/
theorem C8_persistence_error_witness :
    (HandlerResponse.mk 500 false "Internal server error" none none none).status = 500 ∧
    (HandlerResponse.mk 500 false "Internal server error" none none none).success = false ∧
    (HandlerResponse.mk 500 false "Internal server error" none none none).message =
      "Internal server error" := by
  obtain ⟨h1, h2, h3, -, -⟩ :=
    C8_persistence_error_surfaced "production" 2025 fintechRequest (.failed "x") "db down"
      (5, 10, "FinTech") ⟨500, false, "Internal server error", none, none, none⟩ rfl rfl
  exact ⟨h1, h2, h3⟩

/-- **C10.** For every request that passes validation, the fallback's
default arms are dead: `industryMultipliers[industry]`,
`regionMultipliers[validatedRegion]` and `exitMultipliers[validatedExitStatus]`
all hit a table entry, so the `|| 5` and `|| 1` defaults never influence
the lookup results (`getD` is independent of the supplied default). -/
theorem C10_default_arms_dead (r : RawRequest) (rev emp : ℚ) (ind : String)
    (h : validate r = .ok (rev, emp, ind)) :
    (industryMultipliers ind).isSome = true ∧
    (regionMultipliers (validatedRegion r)).isSome = true ∧
    (exitMultipliers (validatedExitStatus r)).isSome = true ∧
    (∀ d : ℚ, (industryMultipliers ind).getD d = (industryMultipliers ind).getD 5) ∧
    (∀ d : ℚ, (regionMultipliers (validatedRegion r)).getD d =
      (regionMultipliers (validatedRegion r)).getD 1) ∧
    (∀ d : ℚ, (exitMultipliers (validatedExitStatus r)).getD d =
      (exitMultipliers (validatedExitStatus r)).getD 1) := by
  obtain ⟨-, -, -, -, -, hmem⟩ := validate_ok_inv h
  have h1 := industryMultipliers_isSome_of_mem hmem
  have h2 := regionMultipliers_isSome_of_mem (validatedRegion_mem r)
  have h3 := exitMultipliers_isSome_of_mem (validatedExitStatus_mem r)
  exact ⟨h1, h2, h3, fun d => getD_of_isSome h1 d 5, fun d => getD_of_isSome h2 d 1,
    fun d => getD_of_isSome h3 d 1⟩

/-- **C10, witness.** -/
theorem C10_default_arms_dead_witness :
    (industryMultipliers "FinTech").isSome = true ∧
    (regionMultipliers (validatedRegion fintechRequest)).isSome = true ∧
    (exitMultipliers (validatedExitStatus fintechRequest)).isSome = true :=
  ⟨(C10_default_arms_dead fintechRequest 5 10 "FinTech" rfl).1,
   (C10_default_arms_dead fintechRequest 5 10 "FinTech" rfl).2.1,
   (C10_default_arms_dead fintechRequest 5 10 "FinTech" rfl).2.2.1⟩

/-- **C3, counterexample.** The employees check is not "coercible to an
integer ≥ 1": the value `3/2` is a non-integer (denominator 2), yet
validation accepts it unchanged — the code only requires
`typeof employees === 'number' && employees >= 1`. -/
theorem C3_validator_counterexample :
    validate fractionalEmployeesRequest = .ok (5, 3/2, "FinTech") ∧
    ((3:ℚ)/2).den ≠ 1 ∧
    validate fractionalEmployeesRequest ≠ .error .invalidEmployees := by
  have hval : validate fractionalEmployeesRequest = .ok (5, 3/2, "FinTech") := by
    norm_num [validate, fractionalEmployeesRequest, fintechRequest, emptyRequest, JSValue.truthy,
      INDUSTRIES]
    rintro (h | h | h) <;> exact absurd h (by decide)
  refine ⟨hval, by norm_num, ?_⟩
  rw [hval]
  simp

set_option maxHeartbeats 1000000 in
/-- **C3, amended.** The validator applies its checks in source order with
first-error-wins semantics: (1) presence of `revenue`, `industry`,
`employees`; (2) `revenue` a number ≥ 0; (3) `employees` a number ≥ 1
(integrality is NOT enforced); (4) `industry` a member of the supported
enumeration; it succeeds exactly when all four hold, and an input
violating an earlier check is reported with that earlier check's error
even if it also violates a later one. -/
theorem C3_validator_first_error (r : RawRequest) :
    (validate r = .error .missingFields ↔ ¬ hasRequired r) ∧
    (validate r = .error .invalidRevenue ↔ hasRequired r ∧ ¬ revenueValid r) ∧
    (validate r = .error .invalidEmployees ↔
      hasRequired r ∧ revenueValid r ∧ ¬ employeesValid r) ∧
    (validate r = .error .invalidIndustry ↔
      hasRequired r ∧ revenueValid r ∧ employeesValid r ∧ ¬ industryValid r) ∧
    ((∃ v, validate r = .ok v) ↔
      hasRequired r ∧ revenueValid r ∧ employeesValid r ∧ industryValid r) := by
  obtain ⟨fr, fa, rv, em, ms, pf, yf, ind, rg, ex⟩ := r
  unfold validate hasRequired revenueValid employeesValid industryValid
  dsimp only
  rcases rv with q | s | b | _ | _ <;> rcases em with q2 | s2 | b2 | _ | _ <;>
    rcases ind with q3 | s3 | b3 | _ | _ <;>
      simp_all [JSValue.truthy, not_le] <;> split_ifs <;> simp_all [not_le]

/-- **C3, witness.** -/
theorem C3_validator_first_error_witness :
    validate emptyRequest = .error .missingFields :=
  (C3_validator_first_error emptyRequest).1.mpr (by rintro ⟨h, -, -⟩; exact h rfl)

/-- `Math.ceil(t / l)` agrees with the natural-number ceiling division
`(t + l - 1) / l` for a positive divisor. -/
theorem nat_ceil_div (t l : ℕ) (hl : 1 ≤ l) :
    ⌈(t : ℚ) / (l : ℚ)⌉ = ((t + l - 1) / l : ℕ) := by
  have hl0 : (0:ℚ) < l := by exact_mod_cast hl
  rw [Int.ceil_eq_iff]
  set q := (t + l - 1) / l with hqdef
  have hmod : (t + l - 1) % l + l * q = t + l - 1 := Nat.mod_add_div _ _
  have hm : (t + l - 1) % l < l := Nat.mod_lt _ (by omega)
  obtain ⟨P, hP⟩ : ∃ P, l * q = P := ⟨_, rfl⟩
  rw [hP] at hmod
  have h1 : t ≤ P := by omega
  have h2 : P < t + l := by omega
  have hq : (q : ℚ) * l = P := by
    rw [← hP]
    push_cast
    ring
  have h1q : (t : ℚ) ≤ P := by exact_mod_cast h1
  have h2q : (P : ℚ) < t + l := by exact_mod_cast h2
  constructor
  · push_cast
    rw [lt_div_iff₀ hl0]
    ring_nf
    linarith
  · push_cast
    rw [div_le_iff₀ hl0]
    linarith

/-- **C7.** The history listing returns the stored records sorted by
creation time descending (newest first), skips `(page − 1) × limit`
records, returns at most `limit` records, defaults `limit` to 10 and
`page` to 1 when the query parameters are absent, reports
`total = store size` and `pages = ceil(total / limit)` (shown equal to the
natural ceiling division for any positive limit). -/
theorem C7_history_pagination (store : List StoredRecord) (limitQ pageQ : Option ℤ)
    (data : List StoredRecord) (pg : PageInfo)
    (h : historyHandler store limitQ pageQ = (data, pg)) :
    List.Sorted recOrder data ∧
    data.length ≤ pg.limit.toNat ∧
    (limitQ = none → pg.limit = 10) ∧
    (pageQ = none → pg.page = 1) ∧
    pg.total = store.length ∧
    data = ((List.insertionSort recOrder store).drop ((pg.page - 1) * pg.limit).toNat).take
      pg.limit.toNat ∧
    (1 ≤ pg.limit →
      pg.pages = ((store.length + pg.limit.toNat - 1) / pg.limit.toNat : ℕ)) := by
  unfold historyHandler at h
  rw [Prod.mk.injEq] at h
  obtain ⟨hd, hp⟩ := h
  subst hd
  subst hp
  refine ⟨?_, ?_, ?_, ?_, ?_, ?_, ?_⟩
  · exact List.Pairwise.sublist ((List.take_sublist _ _).trans (List.drop_sublist _ _))
      (List.sorted_insertionSort recOrder store)
  · rw [List.length_take]
    exact min_le_left _ _
  · intro hnone
    subst hnone
    rfl
  · intro hnone
    subst hnone
    rfl
  · rfl
  · rfl
  · intro hl
    dsimp only at hl ⊢
    have hl' : 1 ≤ (parsedOr 10 limitQ).toNat := by omega
    have h0 : (((parsedOr 10 limitQ).toNat : ℤ)) = parsedOr 10 limitQ :=
      Int.toNat_of_nonneg (by omega)
    have hcast : ((parsedOr 10 limitQ : ℤ) : ℚ) = ((parsedOr 10 limitQ).toNat : ℚ) := by
      rw [← h0]
      push_cast
      rfl
    rw [hcast, nat_ceil_div _ _ hl']

/-- **C7, witness.** -/
theorem C7_history_pagination_witness :
    List.Sorted recOrder [(⟨2, 9⟩ : StoredRecord), ⟨3, 7⟩, ⟨1, 5⟩] ∧
    (PageInfo.mk 1 10 3 1).limit = 10 := by
  have h : historyHandler [⟨1, 5⟩, ⟨2, 9⟩, ⟨3, 7⟩] none none =
      ([⟨2, 9⟩, ⟨3, 7⟩, ⟨1, 5⟩], ⟨1, 10, 3, 1⟩) := by
    unfold historyHandler
    dsimp only
    rw [Prod.mk.injEq]
    constructor
    · rfl
    · rw [PageInfo.mk.injEq]
      refine ⟨rfl, rfl, rfl, ?_⟩
      rw [Int.ceil_eq_iff]
      norm_num [parsedOr]
  exact ⟨(C7_history_pagination _ _ _ _ _ h).1, (C7_history_pagination _ _ _ _ _ h).2.2.1 rfl⟩

end ValuAI
